import Mathlib

/-!
Verification development for the `/api/emma` request handler
(`src/api/emma.js`).  The source file contains two near-duplicate
handler variants: variant A (the basic handler, file lines 1-135) and
variant B (the handler with the GET health probe, file lines 136-281).
Both are embedded below as pure functions.  JavaScript strings are
modelled at the code-point level as `List Char` / Lean `String`
(the emoji regexes use the `u` flag, so they operate on code points).
The two outbound `fetch` calls are modelled by oracle arguments
(`GenResp`, `TtsResp`) holding the upstream responses, and the handler
result records the list of outbound calls actually made, in order.
-/

/-- The JavaScript regex class `\s` (also the set trimmed by
`String.prototype.trim`): tab, LF, VT, FF, CR, space, NBSP, Ogham space,
U+2000..U+200A, LS, PS, NNBSP, MMSP, ideographic space, BOM. -/
def isJsWs (c : Char) : Bool :=
  c.toNat = 0x09 || c.toNat = 0x0A || c.toNat = 0x0B || c.toNat = 0x0C ||
  c.toNat = 0x0D || c.toNat = 0x20 || c.toNat = 0xA0 || c.toNat = 0x1680 ||
  (0x2000 ≤ c.toNat && c.toNat ≤ 0x200A) ||
  c.toNat = 0x2028 || c.toNat = 0x2029 || c.toNat = 0x202F ||
  c.toNat = 0x205F || c.toNat = 0x3000 || c.toNat = 0xFEFF

/-- `String.prototype.trim` on a code-point list: drop leading and
trailing whitespace. -/
def jsTrim (l : List Char) : List Char :=
  ((l.dropWhile isJsWs).reverse.dropWhile isJsWs).reverse

/-- `.replace(/\s+/g, " ")`: every maximal run of whitespace becomes a
single space (U+0020). -/
def collapseWs : List Char → List Char
  | [] => []
  | [c] => if isJsWs c then [' '] else [c]
  | c :: d :: rest =>
    if isJsWs c then
      if isJsWs d then collapseWs (d :: rest)
      else ' ' :: collapseWs (d :: rest)
    else c :: collapseWs (d :: rest)

/-- Code points matched by `/[\u{1F300}-\u{1FAFF}]/u` or
`/[\u{2600}-\u{27BF}]/u` (emma.js lines 128-129 and 277-278). -/
def isEmojiRange (c : Char) : Bool :=
  (0x1F300 ≤ c.toNat && c.toNat ≤ 0x1FAFF) ||
  (0x2600 ≤ c.toNat && c.toNat ≤ 0x27BF)

/-- The variation selector U+FE0F (emma.js lines 131 and 279). -/
def isVariationSel (c : Char) : Bool :=
  c.toNat = 0xFE0F

/-- Characters kept by variant A `stripEmojis` (lines 125-135): it also
removes the angle brackets `<` and `>` (line 133). -/
def keepA (c : Char) : Bool :=
  !(isEmojiRange c || isVariationSel c || c = '<' || c = '>')

/-- Characters kept by variant B `stripEmojis` (lines 275-281): no
angle-bracket removal. -/
def keepB (c : Char) : Bool :=
  !(isEmojiRange c || isVariationSel c)

/-- Generic shape of the full sanitation pipeline applied to the raw
generated text in both handlers:
`stripEmojis(String(rawText || "").trim()).replace(/\s+/g, " ").trim()`,
where `stripEmojis` is itself a global character removal (the filter with
keep predicate `k`) followed by `.trim()`. -/
def sanitizeG (k : Char → Bool) (l : List Char) : List Char :=
  jsTrim (collapseWs (jsTrim ((jsTrim l).filter k)))

/-- Variant A `stripEmojis` (emma.js lines 125-135). -/
def stripEmojisA (s : String) : String :=
  String.mk (jsTrim (s.data.filter keepA))

/-- Variant B `stripEmojis` (emma.js lines 275-281). -/
def stripEmojisB (s : String) : String :=
  String.mk (jsTrim (s.data.filter keepB))

/-- Variant A full sanitation of the raw generated text
(emma.js lines 83-85). -/
def sanitizeA (s : String) : String :=
  String.mk (sanitizeG keepA s.data)

/-- Variant B full sanitation of the raw generated text
(emma.js line 229). -/
def sanitizeB (s : String) : String :=
  String.mk (sanitizeG keepB s.data)

/-- `.slice(0, n)` on a string. -/
def strTake (n : Nat) (s : String) : String :=
  String.mk (s.data.take n)

/-- A JSON value, used for the opaque request fields and for the
handler response bodies. -/
inductive Json where
  | str : String → Json
  | num : Int → Json
  | bool : Bool → Json
  | null : Json
  | arr : List Json → Json
  | obj : List (String × Json) → Json

/-- JSON string escaping as performed by `JSON.stringify`. -/
def jsonEscapeChar (c : Char) : List Char :=
  if c = '"' then ['\\', '"']
  else if c = '\\' then ['\\', '\\']
  else if c = '\x08' then ['\\', 'b']
  else if c = '\x09' then ['\\', 't']
  else if c = '\x0A' then ['\\', 'n']
  else if c = '\x0C' then ['\\', 'f']
  else if c = '\x0D' then ['\\', 'r']
  else if c.toNat < 0x20 then
    ['\\', 'u', '0', '0',
      (Nat.digitChar (c.toNat / 16)), (Nat.digitChar (c.toNat % 16))]
  else [c]

/-- `JSON.stringify` of a string literal. -/
def jsonQuote (s : String) : String :=
  String.mk ('"' :: (s.data.flatMap jsonEscapeChar) ++ ['"'])

mutual

/-- `JSON.stringify` (used by variant A for the structured-output
fallback, emma.js line 81). -/
def stringifyJson : Json → String
  | .str s => jsonQuote s
  | .num n => toString n
  | .bool b => if b then "true" else "false"
  | .null => "null"
  | .arr l => "[" ++ String.intercalate "," (stringifyList l) ++ "]"
  | .obj l => "\x7b" ++ String.intercalate "," (stringifyFields l) ++ "\x7d"

def stringifyList : List Json → List String
  | [] => []
  | j :: rest => stringifyJson j :: stringifyList rest

def stringifyFields : List (String × Json) → List String
  | [] => []
  | (k, v) :: rest => (jsonQuote k ++ ":" ++ stringifyJson v) :: stringifyFields rest

end

/-- The optional fields of the POST body, before the destructuring
defaults are applied (`undefined` is `none`). -/
structure Body where
  lang : Option String
  age_band : Option String
  child_id : Option String
  transcript : Option String
  drawing_summary : Option Json
  last_events : Option (List Json)

/-- `req.body || {}` when the body is absent. -/
def emptyBody : Body := ⟨none, none, none, none, none, none⟩

/-- The inbound HTTP request as far as the handler inspects it. -/
structure Req where
  method : String
  body : Option Body

/-- The environment variables the handler reads (`undefined` is `none`). -/
structure Env where
  OPENAI_API_KEY : Option String
  EMMA_TEXT_MODEL : Option String
  EMMA_TTS_MODEL : Option String
  EMMA_VOICE : Option String

/-- JavaScript truthiness of a possibly-absent string: `undefined` and
the empty string are falsy. -/
def truthyStr : Option String → Bool
  | none => false
  | some s => s ≠ ""

/-- `v || d` for a possibly-absent string `v` (environment variable
defaulting, emma.js lines 19-21 and 172-174). -/
def orDefault (v : Option String) (d : String) : String :=
  match v with
  | none => d
  | some s => if s = "" then d else s

/-- Variant A age-band style table (emma.js lines 30-33). -/
def ageStyleA (age_band : String) : String :=
  if age_band = "3-5" then "very short sentences, simple words, 1 step at a time"
  else if age_band = "6-8" then "short sentences, simple causal questions"
  else "slightly richer language, still child-friendly, encourage hypothesis"

/-- Variant B age-band style table (emma.js lines 176-179). -/
def ageStyleB (age_band : String) : String :=
  if age_band = "3-5" then "very short sentences, simple words, one step at a time"
  else if age_band = "6-8" then "short sentences, simple causal questions"
  else "child-friendly language, encourage hypothesis gently"

/-- Variant A system-prompt template (emma.js lines 35-46), a function of
the locale and the age style only. -/
def mkSysA (locale ageStyle : String) : String :=
  "\nYou are EMMA, a gentle cognitive companion for children.\nLanguage locale: "
  ++ locale ++ ".\nStyle: " ++ ageStyle ++ ".\nRules:\n- Do NOT use emojis or emoticons.\n- Do NOT quote or imitate the child\x27s mispronounced words. Never repeat the transcript.\n- Be warm, curious, and encouraging. No judgement.\n- Ask at most ONE question.\n- Focus on causal thinking: \"change one thing, see what happens\".\n- Keep it under 60 words.\n"

/-- Variant B system-prompt template (emma.js lines 181-192): slightly
different wording and a final `.trim()`. -/
def mkSysB (locale ageStyle : String) : String :=
  String.mk (jsTrim ("\nYou are EMMA, a gentle cognitive companion for children.\nLanguage locale: "
  ++ locale ++ ".\nStyle: " ++ ageStyle ++ ".\nRules:\n- Do NOT use emojis or emoticons.\n- Do NOT quote or imitate the child\x27s mispronounced words. Never repeat the transcript.\n- Be warm, curious, encouraging. No judgement.\n- Ask at most ONE question.\n- Focus on causal thinking: change one thing, see what happens.\n- Keep it under 60 words.\n").data)

/-- The structured user payload sent as the user message to the
generation call (emma.js lines 48-54 and 194-200). -/
structure UserPayload where
  child_id : String
  age_band : String
  lang : String
  drawing_summary : Json
  child_spoken_signal : String
  recent_events : List Json

/-- Body of the text-generation `fetch` (emma.js lines 57-71, 203-217).
The wire format stringifies `user`; the payload is kept structured here. -/
structure GenPayload where
  model : String
  sys : String
  user : UserPayload
  temperature : String

/-- Body of the speech-synthesis `fetch` (emma.js lines 89-101, 236-248). -/
structure TtsPayload where
  model : String
  voice : String
  input : String
  format : String

/-- An outbound call made by the handler. -/
inductive Call where
  | gen : GenPayload → Call
  | tts : TtsPayload → Call

def Call.isTts : Call → Bool
  | .gen _ => false
  | .tts _ => true

/-- The JSON shape of the `/v1/responses` body as far as the handlers
read it: `output_text` (absent is `none`) and the `output` array
(absent or not an array is `none`). -/
structure GenJson where
  output_text : Option String
  output : Option (List Json)

/-- Oracle for the text-generation `fetch`: `ok`, the `.text()` body
(read on failure) and the `.json()` body (read on success). -/
structure GenResp where
  ok : Bool
  bodyText : String
  json : GenJson

/-- Oracle for the speech-synthesis `fetch`: `ok`, the `.text()` body
(read on failure) and the `arrayBuffer` bytes (read on success). -/
structure TtsResp where
  ok : Bool
  bodyText : String
  bytes : List Nat

/-- An HTTP response: status code and JSON body. -/
structure HttpResp where
  status : Nat
  body : Json

/-- A handler run: the response sent plus the outbound calls made. -/
structure HResult where
  resp : HttpResp
  calls : List Call

/-- Variant A raw-text extraction (emma.js lines 79-81):
`textJson.output_text || (Array.isArray(textJson.output) ?
JSON.stringify(textJson.output) : "")`. -/
def rawTextA (j : GenJson) : String :=
  match j.output_text with
  | some s =>
    if s = "" then
      match j.output with
      | some arr => stringifyJson (Json.arr arr)
      | none => ""
    else s
  | none =>
    match j.output with
    | some arr => stringifyJson (Json.arr arr)
    | none => ""

/-- Variant B raw-text extraction (emma.js line 228):
`(textJson && textJson.output_text) ? textJson.output_text : ""`. -/
def rawTextB (j : GenJson) : String :=
  match j.output_text with
  | some s => if s = "" then "" else s
  | none => ""

/-- The sanitized text variant A would synthesize for a given
generation response body. -/
def cleanTextA (j : GenJson) : String := sanitizeA (rawTextA j)

/-- The sanitized text variant B would synthesize for a given
generation response body. -/
def cleanTextB (j : GenJson) : String := sanitizeB (rawTextB j)

/-- `Buffer.from(bytes).toString("base64")`: the standard base64
alphabet with `=` padding, three bytes at a time. -/
def b64Char (n : Nat) : Char :=
  "ABCDEFGHIJKLMNOPQRSTUVWXYZabcdefghijklmnopqrstuvwxyz0123456789+/".data.getD n 'A'

def base64Go : List Nat → List Char
  | a :: b :: c :: rest =>
    b64Char (a / 4) :: b64Char ((a % 4) * 16 + b / 16) ::
    b64Char ((b % 16) * 4 + c / 64) :: b64Char (c % 64) :: base64Go rest
  | [a, b] => [b64Char (a / 4), b64Char ((a % 4) * 16 + b / 16), b64Char ((b % 16) * 4), '=']
  | [a] => [b64Char (a / 4), b64Char ((a % 4) * 16), '=', '=']
  | [] => []

def base64Encode (bytes : List Nat) : String :=
  String.mk (base64Go (bytes.map (· % 256)))

/-- `last_events.slice(-10)`: the last 10 entries (everything when there
are at most 10). -/
def sliceLast10 (l : List Json) : List Json :=
  l.drop (l.length - 10)

/-- The generation-request payload variant A builds (emma.js lines
29-70): system prompt from locale and age style, structured user
payload carrying the transcript only as `child_spoken_signal`. -/
def genPayloadA (env : Env) (req : Req) : GenPayload :=
  let b := req.body.getD emptyBody
  let lang := b.lang.getD "it-IT"
  let age_band := b.age_band.getD "3-5"
  let child_id := b.child_id.getD "bimbo"
  let transcript := b.transcript.getD ""
  let drawing_summary := b.drawing_summary.getD (Json.obj [])
  let last_events := b.last_events.getD []
  { model := orDefault env.EMMA_TEXT_MODEL "gpt-4o-mini"
    sys := mkSysA lang (ageStyleA age_band)
    user := ⟨child_id, age_band, lang, drawing_summary, transcript, sliceLast10 last_events⟩
    temperature := "0.7" }

/-- The generation-request payload variant B builds (emma.js lines
163-216). -/
def genPayloadB (env : Env) (req : Req) : GenPayload :=
  let b := req.body.getD emptyBody
  let lang := b.lang.getD "it-IT"
  let age_band := b.age_band.getD "3-5"
  let child_id := b.child_id.getD "bimbo"
  let transcript := b.transcript.getD ""
  let drawing_summary := b.drawing_summary.getD (Json.obj [])
  let last_events := b.last_events.getD []
  { model := orDefault env.EMMA_TEXT_MODEL "gpt-4o-mini"
    sys := mkSysB lang (ageStyleB age_band)
    user := ⟨child_id, age_band, lang, drawing_summary, transcript, sliceLast10 last_events⟩
    temperature := "0.7" }

/-- The synthesis-request payload variant A builds (emma.js lines
95-100): model and voice from the environment, input the sanitized
text. -/
def ttsPayloadA (env : Env) (j : GenJson) : TtsPayload :=
  { model := orDefault env.EMMA_TTS_MODEL "gpt-4o-mini-tts"
    voice := orDefault env.EMMA_VOICE "alloy"
    input := cleanTextA j
    format := "mp3" }

/-- The synthesis-request payload variant B builds (emma.js lines
242-247). -/
def ttsPayloadB (env : Env) (j : GenJson) : TtsPayload :=
  { model := orDefault env.EMMA_TTS_MODEL "gpt-4o-mini-tts"
    voice := orDefault env.EMMA_VOICE "alloy"
    input := cleanTextB j
    format := "mp3" }

/-- Variant A handler (emma.js lines 1-122). -/
def handlerA (env : Env) (req : Req) (gen : GenResp) (tts : TtsResp) : HResult :=
  if req.method ≠ "POST" then
    ⟨⟨405, Json.obj [("error", Json.str "Method not allowed")]⟩, []⟩
  else if truthyStr env.OPENAI_API_KEY = false then
    ⟨⟨500, Json.obj [("error", Json.str "Missing OPENAI_API_KEY")]⟩, []⟩
  else
    let genCall := Call.gen (genPayloadA env req)
    if gen.ok = false then
      ⟨⟨500, Json.obj [("error", Json.str "Text generation failed"),
                       ("details", Json.str gen.bodyText)]⟩, [genCall]⟩
    else
      let cleanText := cleanTextA gen.json
      let ttsCall := Call.tts (ttsPayloadA env gen.json)
      if tts.ok = false then
        ⟨⟨500, Json.obj [("error", Json.str "TTS failed"),
                         ("details", Json.str tts.bodyText),
                         ("text", Json.str cleanText)]⟩, [genCall, ttsCall]⟩
      else
        ⟨⟨200, Json.obj [("text", Json.str cleanText),
                         ("audio", Json.obj [("mime", Json.str "audio/mpeg"),
                                             ("base64", Json.str (base64Encode tts.bytes))])]⟩,
         [genCall, ttsCall]⟩

/-- Variant B health-probe response (emma.js lines 139-149). -/
def healthRespB (env : Env) : HttpResp :=
  ⟨200, Json.obj [("ok", Json.bool true),
                  ("route", Json.str "/api/emma"),
                  ("methods", Json.arr [Json.str "POST"]),
                  ("hasOpenAIKey", Json.bool (truthyStr env.OPENAI_API_KEY)),
                  ("textModel", Json.str (orDefault env.EMMA_TEXT_MODEL "gpt-4o-mini")),
                  ("ttsModel", Json.str (orDefault env.EMMA_TTS_MODEL "gpt-4o-mini-tts")),
                  ("voice", Json.str (orDefault env.EMMA_VOICE "alloy"))]⟩

/-- Variant B handler (emma.js lines 136-273). -/
def handlerB (env : Env) (req : Req) (gen : GenResp) (tts : TtsResp) : HResult :=
  if req.method = "GET" then
    ⟨healthRespB env, []⟩
  else if req.method ≠ "POST" then
    ⟨⟨405, Json.obj [("error", Json.str "Method not allowed")]⟩, []⟩
  else if truthyStr env.OPENAI_API_KEY = false then
    ⟨⟨500, Json.obj [("error", Json.str "Missing OPENAI_API_KEY"),
                     ("fix", Json.str "Set OPENAI_API_KEY in Vercel → Project → Settings → Environment Variables (Production) and redeploy.")]⟩, []⟩
  else
    let genCall := Call.gen (genPayloadB env req)
    if gen.ok = false then
      ⟨⟨500, Json.obj [("error", Json.str "Text generation failed"),
                       ("details", Json.str (strTake 2000 gen.bodyText))]⟩, [genCall]⟩
    else
      let cleanText := cleanTextB gen.json
      if cleanText = "" then
        ⟨⟨500, Json.obj [("error", Json.str "Empty AI text output")]⟩, [genCall]⟩
      else
        let ttsCall := Call.tts (ttsPayloadB env gen.json)
        if tts.ok = false then
          ⟨⟨500, Json.obj [("error", Json.str "TTS failed"),
                           ("details", Json.str (strTake 2000 tts.bodyText)),
                           ("text", Json.str cleanText)]⟩, [genCall, ttsCall]⟩
        else
          ⟨⟨200, Json.obj [("text", Json.str cleanText),
                           ("audio", Json.obj [("mime", Json.str "audio/mpeg"),
                                               ("base64", Json.str (base64Encode tts.bytes))])]⟩,
           [genCall, ttsCall]⟩

/-- A request equal to `req` except for the transcript field. -/
def setTranscript (req : Req) (t : Option String) : Req :=
  { req with body := some { req.body.getD emptyBody with transcript := t } }

/-! ### Properties of the sanitation pipeline -/

/-- No two adjacent whitespace characters. -/
def WsSep (a b : Char) : Prop := ¬(isJsWs a = true ∧ isJsWs b = true)

/-- Every whitespace character in the list is a plain space. -/
def AllWsSpace (l : List Char) : Prop := ∀ c ∈ l, isJsWs c = true → c = ' '

/-- A list with no leading and no trailing whitespace. -/
def TrimOk (l : List Char) : Prop :=
  (∀ c, l.head? = some c → isJsWs c = false) ∧
  (∀ c, l.getLast? = some c → isJsWs c = false)

theorem mem_jsTrim {c : Char} {l : List Char} (h : c ∈ jsTrim l) : c ∈ l := by
  unfold jsTrim at h
  rw [List.mem_reverse] at h
  have h2 : c ∈ (l.dropWhile isJsWs).reverse :=
    List.Sublist.mem h (List.dropWhile_sublist _)
  rw [List.mem_reverse] at h2
  exact List.Sublist.mem h2 (List.dropWhile_sublist _)


theorem head?_dropWhile {p : Char → Bool} {l : List Char} {c : Char}
    (h : (l.dropWhile p).head? = some c) : p c = false := by
  have h2 := List.head?_dropWhile_not p l
  rw [h] at h2
  exact h2

theorem dropWhile_eq_self_of_head {p : Char → Bool} {l : List Char}
    (h : ∀ c, l.head? = some c → p c = false) : l.dropWhile p = l := by
  cases l with
  | nil => rfl
  | cons a t => simp [List.dropWhile_cons, h a rfl]

theorem getLast?_dropWhile (p : Char → Bool) :
    ∀ l : List Char, l.dropWhile p = [] ∨ (l.dropWhile p).getLast? = l.getLast?
  | [] => Or.inl rfl
  | a :: t => by
    by_cases hp : p a
    · rw [List.dropWhile_cons, if_pos hp]
      rcases getLast?_dropWhile p t with h | h
      · exact Or.inl h
      · cases t with
        | nil => exact Or.inl rfl
        | cons b t' => exact Or.inr (by rw [h, List.getLast?_cons_cons])
    · rw [List.dropWhile_cons, if_neg hp]
      exact Or.inr rfl

theorem jsTrim_eq_self {l : List Char} (h : TrimOk l) : jsTrim l = l := by
  unfold jsTrim
  rw [dropWhile_eq_self_of_head h.1]
  rw [dropWhile_eq_self_of_head (fun c hc => h.2 c (by rwa [List.head?_reverse] at hc))]
  exact List.reverse_reverse l

theorem jsTrim_trimOk (l : List Char) : TrimOk (jsTrim l) := by
  constructor
  · intro c hc
    unfold jsTrim at hc
    rw [List.head?_reverse] at hc
    rcases getLast?_dropWhile isJsWs (l.dropWhile isJsWs).reverse with h | h
    · rw [h] at hc; simp at hc
    · rw [h, List.getLast?_reverse] at hc
      exact head?_dropWhile hc
  · intro c hc
    unfold jsTrim at hc
    rw [List.getLast?_reverse] at hc
    exact head?_dropWhile hc

theorem jsTrim_idem (l : List Char) : jsTrim (jsTrim l) = jsTrim l :=
  jsTrim_eq_self (jsTrim_trimOk l)

theorem collapse_head? (d : Char) :
    ∀ rest : List Char,
      (collapseWs (d :: rest)).head? = some (if isJsWs d then ' ' else d) := by
  intro rest
  induction rest generalizing d with
  | nil => by_cases h : isJsWs d <;> simp [collapseWs, h]
  | cons e r ih =>
    by_cases hd : isJsWs d
    · by_cases he : isJsWs e
      · rw [show collapseWs (d :: e :: r) = collapseWs (e :: r) by
              simp [collapseWs, hd, he], ih e]
        simp [hd, he]
      · simp [collapseWs, hd, he]
    · simp [collapseWs, hd]

theorem collapse_chain : ∀ l : List Char, List.Chain' WsSep (collapseWs l)
  | [] => by simp [collapseWs]
  | [c] => by by_cases h : isJsWs c <;> simp [collapseWs, h, List.chain'_singleton]
  | c :: d :: rest => by
    have ih := collapse_chain (d :: rest)
    by_cases hc : isJsWs c
    · by_cases hd : isJsWs d
      · simpa [collapseWs, hc, hd] using ih
      · rw [show collapseWs (c :: d :: rest) = ' ' :: collapseWs (d :: rest) by
              simp [collapseWs, hc, hd]]
        rw [List.chain'_cons']
        refine ⟨?_, ih⟩
        intro y hy
        rw [collapse_head? d rest, if_neg hd, Option.mem_def, Option.some_inj] at hy
        subst hy
        exact fun hpair => hd hpair.2
    · rw [show collapseWs (c :: d :: rest) = c :: collapseWs (d :: rest) by
            simp [collapseWs, hc]]
      rw [List.chain'_cons']
      exact ⟨fun y _ hpair => hc hpair.1, ih⟩

theorem collapse_allWsSpace : ∀ l : List Char, AllWsSpace (collapseWs l)
  | [] => by intro c hc; simp [collapseWs] at hc
  | [a] => by
    intro c hc hw
    by_cases h : isJsWs a
    · simp [collapseWs, h] at hc; subst hc; rfl
    · simp [collapseWs, h] at hc; subst hc; rw [hw] at h; exact absurd rfl h
  | a :: d :: rest => by
    intro c hc hw
    have ih := collapse_allWsSpace (d :: rest)
    by_cases ha : isJsWs a
    · by_cases hd : isJsWs d
      · rw [show collapseWs (a :: d :: rest) = collapseWs (d :: rest) by
              simp [collapseWs, ha, hd]] at hc
        exact ih c hc hw
      · rw [show collapseWs (a :: d :: rest) = ' ' :: collapseWs (d :: rest) by
              simp [collapseWs, ha, hd]] at hc
        rcases List.mem_cons.mp hc with h | h
        · exact h
        · exact ih c h hw
    · rw [show collapseWs (a :: d :: rest) = a :: collapseWs (d :: rest) by
            simp [collapseWs, ha]] at hc
      rcases List.mem_cons.mp hc with h | h
      · subst h; rw [hw] at ha; exact absurd rfl ha
      · exact ih c h hw

theorem mem_collapse : ∀ {c : Char} {l : List Char}, c ∈ collapseWs l → c = ' ' ∨ c ∈ l := by
  intro c l
  induction l with
  | nil => intro h; simp [collapseWs] at h
  | cons a t ih =>
    cases t with
    | nil =>
      intro h
      by_cases ha : isJsWs a
      · simp [collapseWs, ha] at h; exact Or.inl h
      · simp [collapseWs, ha] at h; subst h; exact Or.inr (List.mem_cons_self _ _)
    | cons d rest =>
      intro h
      by_cases ha : isJsWs a
      · by_cases hd : isJsWs d
        · rw [show collapseWs (a :: d :: rest) = collapseWs (d :: rest) by
                simp [collapseWs, ha, hd]] at h
          rcases ih h with h' | h'
          · exact Or.inl h'
          · exact Or.inr (List.mem_cons_of_mem _ h')
        · rw [show collapseWs (a :: d :: rest) = ' ' :: collapseWs (d :: rest) by
                simp [collapseWs, ha, hd]] at h
          rcases List.mem_cons.mp h with h' | h'
          · exact Or.inl h'
          · rcases ih h' with h'' | h''
            · exact Or.inl h''
            · exact Or.inr (List.mem_cons_of_mem _ h'')
      · rw [show collapseWs (a :: d :: rest) = a :: collapseWs (d :: rest) by
              simp [collapseWs, ha]] at h
        rcases List.mem_cons.mp h with h' | h'
        · subst h'; exact Or.inr (List.mem_cons_self _ _)
        · rcases ih h' with h'' | h''
          · exact Or.inl h''
          · exact Or.inr (List.mem_cons_of_mem _ h'')

theorem collapse_eq_self : ∀ {l : List Char}, AllWsSpace l → List.Chain' WsSep l →
    collapseWs l = l
  | [], _, _ => rfl
  | [a], hs, _ => by
    by_cases h : isJsWs a
    · rw [show collapseWs [a] = [' '] by simp [collapseWs, h]]
      rw [hs a (List.mem_cons_self _ _) h]
    · simp [collapseWs, h]
  | a :: d :: rest, hs, hc => by
    have hs' : AllWsSpace (d :: rest) := fun c hcm hw =>
      hs c (List.mem_cons_of_mem _ hcm) hw
    have hc' : List.Chain' WsSep (d :: rest) := hc.tail
    have ih := collapse_eq_self hs' hc'
    by_cases ha : isJsWs a
    · have hsep : WsSep a d := (List.chain'_cons'.mp hc).1 d rfl
      have hd : isJsWs d = false := by
        by_contra h
        exact hsep ⟨ha, by revert h; cases isJsWs d <;> simp⟩
      rw [show collapseWs (a :: d :: rest) = ' ' :: collapseWs (d :: rest) by
            simp [collapseWs, ha, hd], ih,
          show (' ' : Char) = a from (hs a (List.mem_cons_self _ _) ha).symm]
    · rw [show collapseWs (a :: d :: rest) = a :: collapseWs (d :: rest) by
            simp [collapseWs, ha], ih]

theorem chain_wsSep_reverse {l : List Char} (h : List.Chain' WsSep l) :
    List.Chain' WsSep l.reverse :=
  List.chain'_reverse.mpr (h.imp (fun _ _ hab hp => hab ⟨hp.2, hp.1⟩))

theorem chain_wsSep_jsTrim {l : List Char} (h : List.Chain' WsSep l) :
    List.Chain' WsSep (jsTrim l) := by
  unfold jsTrim
  exact chain_wsSep_reverse
    (List.Chain'.suffix (chain_wsSep_reverse
      (List.Chain'.suffix h (List.dropWhile_suffix isJsWs))) (List.dropWhile_suffix isJsWs))

theorem sanitizeG_trimOk (k : Char → Bool) (l : List Char) : TrimOk (sanitizeG k l) :=
  jsTrim_trimOk _

theorem mem_sanitizeG {k : Char → Bool} {c : Char} {l : List Char}
    (h : c ∈ sanitizeG k l) : k c = true ∨ c = ' ' := by
  unfold sanitizeG at h
  have h1 := mem_jsTrim h
  rcases mem_collapse h1 with h2 | h2
  · exact Or.inr h2
  · have h3 := mem_jsTrim h2
    exact Or.inl (List.mem_filter.mp h3).2

theorem sanitizeG_idem (k : Char → Bool) (hk : k ' ' = true) (l : List Char) :
    sanitizeG k (sanitizeG k l) = sanitizeG k l := by
  have f1 : jsTrim (sanitizeG k l) = sanitizeG k l := jsTrim_eq_self (sanitizeG_trimOk k l)
  have f2 : (sanitizeG k l).filter k = sanitizeG k l := by
    rw [List.filter_eq_self]
    intro c hc
    rcases mem_sanitizeG hc with h | h
    · exact h
    · rw [h]; exact hk
  have f3 : collapseWs (sanitizeG k l) = sanitizeG k l := by
    apply collapse_eq_self
    · intro c hc hw
      have h1 := mem_jsTrim (l := collapseWs (jsTrim ((jsTrim l).filter k))) hc
      exact collapse_allWsSpace _ c h1 hw
    · exact chain_wsSep_jsTrim (collapse_chain (jsTrim ((jsTrim l).filter k)))
  show jsTrim (collapseWs (jsTrim ((jsTrim (sanitizeG k l)).filter k))) = sanitizeG k l
  rw [f1, f2, f1, f3]
  exact f1

/-! ### Helper lemmas about the handlers -/

theorem handlerA_first_call (env : Env) (req : Req) (gen : GenResp) (tts : TtsResp)
    (hm : req.method = "POST") (hk : truthyStr env.OPENAI_API_KEY = true) :
    (handlerA env req gen tts).calls.head? = some (Call.gen (genPayloadA env req)) := by
  unfold handlerA
  rw [if_neg (by simp [hm]), if_neg (by simp [hk])]
  by_cases hg : gen.ok = false
  · simp [hg]
  · by_cases ht : tts.ok = false <;> simp [hg, ht]

theorem handlerB_first_call (env : Env) (req : Req) (gen : GenResp) (tts : TtsResp)
    (hm : req.method = "POST") (hk : truthyStr env.OPENAI_API_KEY = true) :
    (handlerB env req gen tts).calls.head? = some (Call.gen (genPayloadB env req)) := by
  unfold handlerB
  rw [if_neg (by simp [hm]), if_neg (by simp [hm]), if_neg (by simp [hk])]
  by_cases hg : gen.ok = false
  · simp [hg]
  · by_cases he : cleanTextB gen.json = ""
    · simp [hg, he]
    · by_cases ht : tts.ok = false <;> simp [hg, he, ht]

/-- Whatever either keep predicate keeps, and the space character, is
outside the emoji ranges and is not the variation selector. -/
theorem keep_no_emoji {c : Char} (h : keepA c = true ∨ keepB c = true ∨ c = ' ') :
    (!(isEmojiRange c || isVariationSel c)) = true := by
  rcases h with h | h | h
  · have h2 : (isEmojiRange c || isVariationSel c || decide (c = '<') || decide (c = '>')) = false := by
      simpa [keepA] using h
    rcases Bool.or_eq_false_iff.mp h2 with ⟨h3, _⟩
    rcases Bool.or_eq_false_iff.mp h3 with ⟨h4, _⟩
    simp [h4]
  · exact h
  · subst h; decide

/-! ### Concrete inputs used by the witnesses -/

def envK : Env := ⟨some "k", none, none, none⟩

def envNoKey : Env := ⟨none, none, none, none⟩

def reqPut : Req := ⟨"PUT", none⟩

def reqPost : Req := ⟨"POST", none⟩

def genOk1 : GenResp := ⟨true, "", ⟨some "Ciao", none⟩⟩

def ttsOk1 : TtsResp := ⟨true, "", [1, 2]⟩

/-! ### The claims -/

/-- Claim C3: the text sanitization pipeline (emoji-range stripping
followed by whitespace collapsing and trimming) of each handler variant
is idempotent: sanitizing twice yields the same string as sanitizing
once, for every string. -/
theorem c3_sanitize_idempotent (s : String) :
    sanitizeA (sanitizeA s) = sanitizeA s ∧ sanitizeB (sanitizeB s) = sanitizeB s :=
  ⟨congrArg String.mk (sanitizeG_idem keepA (by decide) s.data),
   congrArg String.mk (sanitizeG_idem keepB (by decide) s.data)⟩

/-- Claim C4: for every input string, the sanitized output (either
variant) contains no code point in U+1F300-U+1FAFF or U+2600-U+27BF and
no occurrence of the variation selector U+FE0F. -/
theorem c4_sanitize_strips_all (s : String) :
    (sanitizeA s).data.all (fun c => !(isEmojiRange c || isVariationSel c)) = true ∧
    (sanitizeB s).data.all (fun c => !(isEmojiRange c || isVariationSel c)) = true := by
  constructor
  · rw [List.all_eq_true]
    intro c hc
    rcases mem_sanitizeG hc with h | h
    · exact keep_no_emoji (Or.inl h)
    · exact keep_no_emoji (Or.inr (Or.inr h))
  · rw [List.all_eq_true]
    intro c hc
    rcases mem_sanitizeG hc with h | h
    · exact keep_no_emoji (Or.inr (Or.inl h))
    · exact keep_no_emoji (Or.inr (Or.inr h))

/-- Claim C8: a request whose method is not POST is answered with a 405
JSON error body and zero outbound calls: by variant A always, and by
variant B whenever the method is also not GET (GET serves the health
probe there). -/
theorem c8_method_not_allowed (env : Env) (req : Req) (gen : GenResp) (tts : TtsResp)
    (hA : req.method ≠ "POST") :
    handlerA env req gen tts =
      ⟨⟨405, Json.obj [("error", Json.str "Method not allowed")]⟩, []⟩ ∧
    (req.method ≠ "GET" →
      handlerB env req gen tts =
        ⟨⟨405, Json.obj [("error", Json.str "Method not allowed")]⟩, []⟩) := by
  constructor
  · simp [handlerA, hA]
  · intro hG
    simp [handlerB, hA, hG]

theorem c8_witness :
    handlerA envK reqPut genOk1 ttsOk1 =
      ⟨⟨405, Json.obj [("error", Json.str "Method not allowed")]⟩, []⟩ ∧
    handlerB envK reqPut genOk1 ttsOk1 =
      ⟨⟨405, Json.obj [("error", Json.str "Method not allowed")]⟩, []⟩ := by
  have h := c8_method_not_allowed envK reqPut genOk1 ttsOk1 (by decide)
  exact ⟨h.1, h.2 (by decide)⟩

/-- Claim C7: a POST request handled with no truthy API credential in
the environment is answered with a 500 configuration error by both
variants, with zero outbound calls. -/
theorem c7_missing_key (env : Env) (req : Req) (gen : GenResp) (tts : TtsResp)
    (hm : req.method = "POST") (hk : truthyStr env.OPENAI_API_KEY = false) :
    handlerA env req gen tts =
      ⟨⟨500, Json.obj [("error", Json.str "Missing OPENAI_API_KEY")]⟩, []⟩ ∧
    handlerB env req gen tts =
      ⟨⟨500, Json.obj [("error", Json.str "Missing OPENAI_API_KEY"),
        ("fix", Json.str "Set OPENAI_API_KEY in Vercel → Project → Settings → Environment Variables (Production) and redeploy.")]⟩, []⟩ := by
  constructor
  · simp [handlerA, hm, hk]
  · simp [handlerB, hm, hk]

theorem c7_witness :
    handlerA envNoKey reqPost genOk1 ttsOk1 =
      ⟨⟨500, Json.obj [("error", Json.str "Missing OPENAI_API_KEY")]⟩, []⟩ ∧
    handlerB envNoKey reqPost genOk1 ttsOk1 =
      ⟨⟨500, Json.obj [("error", Json.str "Missing OPENAI_API_KEY"),
        ("fix", Json.str "Set OPENAI_API_KEY in Vercel → Project → Settings → Environment Variables (Production) and redeploy.")]⟩, []⟩ :=
  c7_missing_key envNoKey reqPost genOk1 ttsOk1 rfl rfl

/-- Claim C5: the rendered system instruction string is independent of
the transcript.  For any request, replacing only the transcript field
changes the generation payload of either variant only in the user
payload's child_spoken_signal field; the system prompt (and everything
else) is unchanged, and child_spoken_signal carries exactly the
(defaulted) transcript.  The payload named here is the first outbound
call the handler makes. -/
theorem c5_transcript_isolated (env : Env) (req : Req) (t : Option String)
    (gen : GenResp) (tts : TtsResp)
    (hm : req.method = "POST") (hk : truthyStr env.OPENAI_API_KEY = true) :
    genPayloadA env (setTranscript req t) =
      { genPayloadA env req with
        user := { (genPayloadA env req).user with child_spoken_signal := t.getD "" } } ∧
    genPayloadB env (setTranscript req t) =
      { genPayloadB env req with
        user := { (genPayloadB env req).user with child_spoken_signal := t.getD "" } } ∧
    (genPayloadA env req).user.child_spoken_signal =
      (req.body.getD emptyBody).transcript.getD "" ∧
    (genPayloadB env req).user.child_spoken_signal =
      (req.body.getD emptyBody).transcript.getD "" ∧
    (handlerA env req gen tts).calls.head? = some (Call.gen (genPayloadA env req)) ∧
    (handlerB env req gen tts).calls.head? = some (Call.gen (genPayloadB env req)) :=
  ⟨rfl, rfl, rfl, rfl,
   handlerA_first_call env req gen tts hm hk,
   handlerB_first_call env req gen tts hm hk⟩

theorem c5_witness :
    genPayloadA envK (setTranscript reqPost (some "palla rossa")) =
      { genPayloadA envK reqPost with
        user := { (genPayloadA envK reqPost).user with child_spoken_signal := "palla rossa" } } ∧
    (genPayloadA envK reqPost).user.child_spoken_signal = "" ∧
    (handlerA envK reqPost genOk1 ttsOk1).calls.head? =
      some (Call.gen (genPayloadA envK reqPost)) := by
  have h := c5_transcript_isolated envK reqPost (some "palla rossa") genOk1 ttsOk1 rfl rfl
  exact ⟨h.1, h.2.2.1, h.2.2.2.2.1⟩

/-- Claim C6: the recent_events sequence carried by the generation
payload of either variant is last_events.slice(-10): exactly the last
10 entries (a length-10 suffix) when last_events has more than 10
entries, and last_events unchanged otherwise.  The payload named here
is the first outbound call the handler makes. -/
theorem c6_recent_events_truncated (env : Env) (req : Req) (gen : GenResp) (tts : TtsResp)
    (hm : req.method = "POST") (hk : truthyStr env.OPENAI_API_KEY = true) :
    (genPayloadA env req).user.recent_events =
      sliceLast10 ((req.body.getD emptyBody).last_events.getD []) ∧
    (genPayloadB env req).user.recent_events =
      sliceLast10 ((req.body.getD emptyBody).last_events.getD []) ∧
    (∀ l : List Json, 10 < l.length → (sliceLast10 l).length = 10 ∧ sliceLast10 l <:+ l) ∧
    (∀ l : List Json, l.length ≤ 10 → sliceLast10 l = l) ∧
    (handlerA env req gen tts).calls.head? = some (Call.gen (genPayloadA env req)) ∧
    (handlerB env req gen tts).calls.head? = some (Call.gen (genPayloadB env req)) := by
  refine ⟨rfl, rfl, ?_, ?_,
    handlerA_first_call env req gen tts hm hk,
    handlerB_first_call env req gen tts hm hk⟩
  · intro l hl
    constructor
    · rw [sliceLast10, List.length_drop]
      omega
    · exact List.drop_suffix _ _
  · intro l hl
    rw [sliceLast10, Nat.sub_eq_zero_of_le hl, List.drop_zero]

def reqEvents : Req :=
  ⟨"POST", some ⟨none, none, none, none, none,
    some [Json.num 1, Json.num 2, Json.num 3, Json.num 4, Json.num 5, Json.num 6,
          Json.num 7, Json.num 8, Json.num 9, Json.num 10, Json.num 11, Json.num 12]⟩⟩

theorem c6_witness :
    (genPayloadA envK reqEvents).user.recent_events =
      [Json.num 3, Json.num 4, Json.num 5, Json.num 6, Json.num 7, Json.num 8,
       Json.num 9, Json.num 10, Json.num 11, Json.num 12] ∧
    (handlerA envK reqEvents genOk1 ttsOk1).calls.head? =
      some (Call.gen (genPayloadA envK reqEvents)) := by
  have h := c6_recent_events_truncated envK reqEvents genOk1 ttsOk1 rfl rfl
  refine ⟨?_, h.2.2.2.2.1⟩
  rw [h.1]
  rfl

def genWhite : GenResp := ⟨true, "", ⟨some "  ", none⟩⟩

/-- Claim C1 counterexample: variant A has no empty-output guard.  On a
generation response whose text is whitespace-only, so that it sanitizes
to the empty string, variant A still invokes the speech-synthesis call
(and returns 200), instead of returning a 500 "empty output" error. -/
theorem c1_counterexample :
    cleanTextA genWhite.json = "" ∧
    (handlerA envK reqPost genWhite ttsOk1).calls.any Call.isTts = true ∧
    (handlerA envK reqPost genWhite ttsOk1).resp.status = 200 :=
  ⟨rfl, rfl, rfl⟩

/-- Claim C1 (amended to the guarded variant B): whenever the extracted
text sanitizes to the empty string, variant B returns a 500 "Empty AI
text output" error and its only outbound call is the generation call,
so the synthesis call is never invoked. -/
theorem c1_empty_output (env : Env) (req : Req) (gen : GenResp) (tts : TtsResp)
    (hm : req.method = "POST") (hk : truthyStr env.OPENAI_API_KEY = true)
    (hok : gen.ok = true) (hempty : cleanTextB gen.json = "") :
    handlerB env req gen tts =
      ⟨⟨500, Json.obj [("error", Json.str "Empty AI text output")]⟩,
       [Call.gen (genPayloadB env req)]⟩ := by
  simp [handlerB, hm, hk, hok, hempty]

def genEmptyJson : GenResp := ⟨true, "", ⟨none, none⟩⟩

theorem c1_witness :
    handlerB envK reqPost genEmptyJson ttsOk1 =
      ⟨⟨500, Json.obj [("error", Json.str "Empty AI text output")]⟩,
       [Call.gen (genPayloadB envK reqPost)]⟩ :=
  c1_empty_output envK reqPost genEmptyJson ttsOk1 rfl rfl rfl rfl

def bigBody : String := String.mk (List.replicate 2001 'a')

def genFailBig : GenResp := ⟨false, bigBody, ⟨none, none⟩⟩

/-- Claim C2 counterexample: variant A does not truncate the upstream
diagnostic body.  On a failing generation response whose body is 2001
characters long, variant A's 500 "Text generation failed" response
carries the full 2001-character body as details, exceeding the claimed
2000-character cap. -/
theorem c2_counterexample :
    (handlerA envK reqPost genFailBig ttsOk1).resp =
      ⟨500, Json.obj [("error", Json.str "Text generation failed"),
                      ("details", Json.str bigBody)]⟩ ∧
    2000 < bigBody.length := by
  constructor
  · rfl
  · show 2000 < (List.replicate 2001 'a').length
    rw [List.length_replicate]
    omega

/-- Claim C2 (amended): on every non-success generation response, both
variants return a 500 "Text generation failed" error whose only
outbound call is the single generation call (no retry, no synthesis);
variant B truncates the diagnostic details to at most 2000 characters
of the upstream body, while variant A includes the full body. -/
theorem c2_gen_failure (env : Env) (req : Req) (gen : GenResp) (tts : TtsResp)
    (hm : req.method = "POST") (hk : truthyStr env.OPENAI_API_KEY = true)
    (hg : gen.ok = false) :
    handlerA env req gen tts =
      ⟨⟨500, Json.obj [("error", Json.str "Text generation failed"),
                       ("details", Json.str gen.bodyText)]⟩,
       [Call.gen (genPayloadA env req)]⟩ ∧
    handlerB env req gen tts =
      ⟨⟨500, Json.obj [("error", Json.str "Text generation failed"),
                       ("details", Json.str (strTake 2000 gen.bodyText))]⟩,
       [Call.gen (genPayloadB env req)]⟩ ∧
    (strTake 2000 gen.bodyText).length ≤ 2000 := by
  refine ⟨by simp [handlerA, hm, hk, hg], by simp [handlerB, hm, hk, hg], ?_⟩
  show (gen.bodyText.data.take 2000).length ≤ 2000
  rw [List.length_take]
  exact Nat.min_le_left _ _

def genFail1 : GenResp := ⟨false, "rate limited", ⟨none, none⟩⟩

theorem c2_witness :
    handlerA envK reqPost genFail1 ttsOk1 =
      ⟨⟨500, Json.obj [("error", Json.str "Text generation failed"),
                       ("details", Json.str "rate limited")]⟩,
       [Call.gen (genPayloadA envK reqPost)]⟩ ∧
    handlerB envK reqPost genFail1 ttsOk1 =
      ⟨⟨500, Json.obj [("error", Json.str "Text generation failed"),
                       ("details", Json.str "rate limited")]⟩,
       [Call.gen (genPayloadB envK reqPost)]⟩ := by
  have h := c2_gen_failure envK reqPost genFail1 ttsOk1 rfl rfl rfl
  constructor
  · rw [h.1]
    rfl
  · rw [h.2.1]
    rfl

/-- Claim C9: on every non-success synthesis response (the generation
call having succeeded, and in variant B its text being non-empty), both
variants return a 500 "TTS failed" error whose payload carries a
details field and the already-sanitized text as the text field, the
same string that was the input of the synthesis call. -/
theorem c9_tts_failure (env : Env) (req : Req) (gen : GenResp) (tts : TtsResp)
    (hm : req.method = "POST") (hk : truthyStr env.OPENAI_API_KEY = true)
    (hgok : gen.ok = true) (htts : tts.ok = false) :
    handlerA env req gen tts =
      ⟨⟨500, Json.obj [("error", Json.str "TTS failed"),
                       ("details", Json.str tts.bodyText),
                       ("text", Json.str (cleanTextA gen.json))]⟩,
       [Call.gen (genPayloadA env req), Call.tts (ttsPayloadA env gen.json)]⟩ ∧
    (ttsPayloadA env gen.json).input = cleanTextA gen.json ∧
    (cleanTextB gen.json ≠ "" →
      handlerB env req gen tts =
        ⟨⟨500, Json.obj [("error", Json.str "TTS failed"),
                         ("details", Json.str (strTake 2000 tts.bodyText)),
                         ("text", Json.str (cleanTextB gen.json))]⟩,
         [Call.gen (genPayloadB env req), Call.tts (ttsPayloadB env gen.json)]⟩ ∧
      (ttsPayloadB env gen.json).input = cleanTextB gen.json) := by
  refine ⟨by simp [handlerA, hm, hk, hgok, htts], rfl, fun he => ⟨?_, rfl⟩⟩
  simp [handlerB, hm, hk, hgok, htts, he]

def ttsFail1 : TtsResp := ⟨false, "tts down", []⟩

theorem c9_witness :
    handlerA envK reqPost genOk1 ttsFail1 =
      ⟨⟨500, Json.obj [("error", Json.str "TTS failed"),
                       ("details", Json.str "tts down"),
                       ("text", Json.str "Ciao")]⟩,
       [Call.gen (genPayloadA envK reqPost), Call.tts (ttsPayloadA envK genOk1.json)]⟩ ∧
    handlerB envK reqPost genOk1 ttsFail1 =
      ⟨⟨500, Json.obj [("error", Json.str "TTS failed"),
                       ("details", Json.str "tts down"),
                       ("text", Json.str "Ciao")]⟩,
       [Call.gen (genPayloadB envK reqPost), Call.tts (ttsPayloadB envK genOk1.json)]⟩ := by
  have h := c9_tts_failure envK reqPost genOk1 ttsFail1 rfl rfl rfl rfl
  constructor
  · rw [h.1]
    rfl
  · rw [(h.2.2 (by decide)).1]
    rfl

/-- Claim C10: on every successful run (generation and synthesis both
succeed; in variant B the sanitized text is non-empty), the 200
response's text field is exactly the sanitized string that was the
synthesis-call input, audio.mime is "audio/mpeg", and audio.base64 is
the base64 encoding of exactly the byte payload the synthesis service
returned. -/
theorem c10_success (env : Env) (req : Req) (gen : GenResp) (tts : TtsResp)
    (hm : req.method = "POST") (hk : truthyStr env.OPENAI_API_KEY = true)
    (hgok : gen.ok = true) (htts : tts.ok = true) :
    handlerA env req gen tts =
      ⟨⟨200, Json.obj [("text", Json.str (cleanTextA gen.json)),
                       ("audio", Json.obj [("mime", Json.str "audio/mpeg"),
                                           ("base64", Json.str (base64Encode tts.bytes))])]⟩,
       [Call.gen (genPayloadA env req), Call.tts (ttsPayloadA env gen.json)]⟩ ∧
    (ttsPayloadA env gen.json).input = cleanTextA gen.json ∧
    (cleanTextB gen.json ≠ "" →
      handlerB env req gen tts =
        ⟨⟨200, Json.obj [("text", Json.str (cleanTextB gen.json)),
                         ("audio", Json.obj [("mime", Json.str "audio/mpeg"),
                                             ("base64", Json.str (base64Encode tts.bytes))])]⟩,
         [Call.gen (genPayloadB env req), Call.tts (ttsPayloadB env gen.json)]⟩ ∧
      (ttsPayloadB env gen.json).input = cleanTextB gen.json) := by
  refine ⟨by simp [handlerA, hm, hk, hgok, htts], rfl, fun he => ⟨?_, rfl⟩⟩
  simp [handlerB, hm, hk, hgok, htts, he]

def reqScenario : Req :=
  ⟨"POST", some ⟨some "it-IT", some "3-5", none, some "palla rossa",
                 some (Json.obj [("color", Json.str "red")]), some []⟩⟩

def genScenario : GenResp := ⟨true, "", ⟨some "Che bella palla! 😀 Di che colore è?", none⟩⟩

theorem c10_witness :
    (handlerA envK reqScenario genScenario ttsOk1).resp =
      ⟨200, Json.obj [("text", Json.str "Che bella palla! Di che colore è?"),
                      ("audio", Json.obj [("mime", Json.str "audio/mpeg"),
                                          ("base64", Json.str "AQI=")])]⟩ ∧
    (handlerB envK reqScenario genScenario ttsOk1).resp =
      ⟨200, Json.obj [("text", Json.str "Che bella palla! Di che colore è?"),
                      ("audio", Json.obj [("mime", Json.str "audio/mpeg"),
                                          ("base64", Json.str "AQI=")])]⟩ := by
  have h := c10_success envK reqScenario genScenario ttsOk1 rfl rfl rfl rfl
  constructor
  · rw [h.1]
    rfl
  · rw [(h.2.2 (by decide)).1]
    rfl
